import Mathlib

/-!
Verification of the web4 Identity & Trust Ledger core.

Shallow embedding of the Rust crates `web4-core` and `web4-trust-core`.
`f64` values are modelled as real numbers (exact arithmetic); `u64` counters
as `Nat`; `Vec<String>` as `List String`; the `HashMap` of sub-dimensions as
an association list.  Wall-clock timestamps (`chrono::Utc::now`) are outside
the embedding and the corresponding record fields are omitted; no verified
property mentions them.
-/

noncomputable section

namespace Web4

/-- `Web4Error` from `web4-core/src/error.rs`. -/
inductive Web4Error where
  | Crypto (msg : String)
  | SignatureInvalid (msg : String)
  | Lct (msg : String)
  | CoherenceBelowThreshold (score threshold : ℝ)
  | Serialization (msg : String)
  | InvalidInput (msg : String)
  | NotFound (msg : String)
  | Unauthorized (msg : String)
  | LctVoided (msg : String)


/-- The three root dimensions of trust (`web4-core/src/t3.rs`, `TrustDimension`). -/
inductive TrustDimension where
  | Talent
  | Training
  | Temperament
deriving DecidableEq

/-- `TrustDimension as usize` — the discriminant used to index the arrays. -/
def TrustDimension.idx : TrustDimension → Fin 3
  | .Talent => 0
  | .Training => 1
  | .Temperament => 2

/-- The three root dimensions of value (`web4-core/src/v3.rs`, `ValueDimension`). -/
inductive ValueDimension where
  | Valuation
  | Veracity
  | Validity
deriving DecidableEq

/-- `ValueDimension as usize`. -/
def ValueDimension.idx : ValueDimension → Fin 3
  | .Valuation => 0
  | .Veracity => 1
  | .Validity => 2

/-- Sub-dimension score record (`SubDimensionScore` in `t3.rs`/`v3.rs`);
the `parent` root-dimension tag is kept abstract as a `Fin 3` index since the
two files differ only in that tag's type. -/
structure SubDimensionScore where
  score : ℝ
  weight : ℝ
  observation_count : ℕ
  parent : Fin 3

/-- The T3 trust tensor state (`web4-core/src/t3.rs`, `struct T3`).
The `[f64; 3]` arrays are functions from `Fin 3`; the sub-dimension
`HashMap<String, SubDimensionScore>` is an association list. -/
structure T3 where
  dimensions : Fin 3 → ℝ
  weights : Fin 3 → ℝ
  observation_counts : Fin 3 → ℕ
  sub_dimensions : List (String × SubDimensionScore)

/-- The V3 value tensor state (`web4-core/src/v3.rs`, `struct V3`). -/
structure V3 where
  dimensions : Fin 3 → ℝ
  weights : Fin 3 → ℝ
  observation_counts : Fin 3 → ℕ
  sub_dimensions : List (String × SubDimensionScore)

/-- The epsilon the code adds before taking logarithms: `1e-10`. -/
def epsT3 : ℝ := 1 / 10 ^ 10

/-- `T3::new()`: neutral scores 0.5, zero weights and counts. -/
def T3.new : T3 where
  dimensions := fun _ => 0.5
  weights := fun _ => 0
  observation_counts := fun _ => 0
  sub_dimensions := []

/-- `V3::new()`. -/
def V3.new : V3 where
  dimensions := fun _ => 0.5
  weights := fun _ => 0
  observation_counts := fun _ => 0
  sub_dimensions := []

/-- `T3::observe`: validates the score, then applies the EMA update and the
logarithmic weight recomputation.  The Rust method mutates `&mut self` and
returns `Result<()>`; here it returns the result together with the post-state
(the pre-state unchanged when validation fails, since the Rust code returns
before any write). -/
def T3.observe (t : T3) (dimension : TrustDimension) (observed_score : ℝ) :
    Except Web4Error Unit × T3 :=
  if ¬(0 ≤ observed_score ∧ observed_score ≤ 1) then
    (Except.error (.InvalidInput "Observed score must be in range [0.0, 1.0]"), t)
  else
    let idx := dimension.idx
    let count := t.observation_counts idx
    let alpha : ℝ := 0.5 / (1 + (count : ℝ) / 10)
    let newScore := alpha * observed_score + (1 - alpha) * t.dimensions idx
    let newCount := count + 1
    let newWeight := min (Real.log (1 + (newCount : ℝ)) / Real.log 10) 1
    (Except.ok (),
      { t with
        dimensions := Function.update t.dimensions idx newScore
        observation_counts := Function.update t.observation_counts idx newCount
        weights := Function.update t.weights idx newWeight })

/-- `V3::observe` — same update rule as `T3::observe`. -/
def V3.observe (v : V3) (dimension : ValueDimension) (observed_score : ℝ) :
    Except Web4Error Unit × V3 :=
  if ¬(0 ≤ observed_score ∧ observed_score ≤ 1) then
    (Except.error (.InvalidInput "Observed score must be in range [0.0, 1.0]"), v)
  else
    let idx := dimension.idx
    let count := v.observation_counts idx
    let alpha : ℝ := 0.5 / (1 + (count : ℝ) / 10)
    let newScore := alpha * observed_score + (1 - alpha) * v.dimensions idx
    let newCount := count + 1
    let newWeight := min (Real.log (1 + (newCount : ℝ)) / Real.log 10) 1
    (Except.ok (),
      { v with
        dimensions := Function.update v.dimensions idx newScore
        observation_counts := Function.update v.observation_counts idx newCount
        weights := Function.update v.weights idx newWeight })

/-- `self.weights.iter().sum()` over the fixed 3-element array. -/
def T3.totalWeight (t : T3) : ℝ := t.weights 0 + t.weights 1 + t.weights 2

/-- `T3::aggregate`: weighted geometric mean over an epsilon-stabilised
log-sum; returns neutral 0.5 when the total weight is zero. -/
def T3.aggregate (t : T3) : ℝ :=
  if t.totalWeight = 0 then 0.5
  else
    let logSum : ℝ :=
      t.weights 0 * Real.log (t.dimensions 0 + epsT3) +
      t.weights 1 * Real.log (t.dimensions 1 + epsT3) +
      t.weights 2 * Real.log (t.dimensions 2 + epsT3)
    Real.exp (logSum / t.totalWeight)

/-- `self.weights.iter().sum()` for V3. -/
def V3.totalWeight (v : V3) : ℝ := v.weights 0 + v.weights 1 + v.weights 2

/-- `V3::aggregate`: weighted arithmetic mean; neutral 0.5 at zero total
weight. -/
def V3.aggregate (v : V3) : ℝ :=
  if v.totalWeight = 0 then 0.5
  else
    (v.dimensions 0 * v.weights 0 + v.dimensions 1 * v.weights 1 +
      v.dimensions 2 * v.weights 2) / v.totalWeight

/-- `T3::decay`: pulls every root score toward 0.5 by `decay_factor`, scales
every weight by `decay_factor`, and does the same to every sub-dimension. -/
def T3.decay (t : T3) (decay_factor : ℝ) : T3 where
  dimensions := fun i => 0.5 + (t.dimensions i - 0.5) * decay_factor
  weights := fun i => t.weights i * decay_factor
  observation_counts := t.observation_counts
  sub_dimensions := t.sub_dimensions.map (fun p =>
    (p.1, { p.2 with
            score := 0.5 + (p.2.score - 0.5) * decay_factor
            weight := p.2.weight * decay_factor }))

/-- `V3::decay` — identical update rule to `T3::decay`. -/
def V3.decay (v : V3) (decay_factor : ℝ) : V3 where
  dimensions := fun i => 0.5 + (v.dimensions i - 0.5) * decay_factor
  weights := fun i => v.weights i * decay_factor
  observation_counts := v.observation_counts
  sub_dimensions := v.sub_dimensions.map (fun p =>
    (p.1, { p.2 with
            score := 0.5 + (p.2.score - 0.5) * decay_factor
            weight := p.2.weight * decay_factor }))

/-- Identity coherence factors (`web4-core/src/coherence.rs`, `struct Coherence`). -/
structure Coherence where
  continuity : ℝ
  stability : ℝ
  phi : ℝ
  reachability : ℝ

/-- `Coherence::total()`: the product C × S × Φ × R. -/
def Coherence.total (c : Coherence) : ℝ :=
  c.continuity * c.stability * c.phi * c.reachability

/-- `core::cmp::min_by` on (name, value) pairs under `partial_cmp` of the
values: returns the second argument only when it is strictly smaller, so the
accumulator (the earlier element) wins ties.  `Iterator::min_by` left-folds
this over the array. -/
def rustMinBy2 (a b : String × ℝ) : String × ℝ :=
  if b.2 < a.2 then b else a

/-- `Coherence::limiting_factor()`: `min_by` over the array
`[("continuity", c), ("stability", s), ("phi", p), ("reachability", r)]`,
written as the left fold that `Iterator::min_by` performs. -/
def Coherence.limiting_factor (c : Coherence) : String × ℝ :=
  rustMinBy2
    (rustMinBy2
      (rustMinBy2 ("continuity", c.continuity) ("stability", c.stability))
      ("phi", c.phi))
    ("reachability", c.reachability)

/-- Modelled from the spec's words for the refinement claim C9: the name-value
pair of the minimum of the four factors, ties broken by the stable enumeration
order (continuity, stability, phi, reachability). -/
def Coherence.limiting_factor_ordered_min (c : Coherence) : String × ℝ :=
  if c.continuity ≤ c.stability ∧ c.continuity ≤ c.phi ∧ c.continuity ≤ c.reachability then
    ("continuity", c.continuity)
  else if c.stability ≤ c.phi ∧ c.stability ≤ c.reachability then
    ("stability", c.stability)
  else if c.phi ≤ c.reachability then
    ("phi", c.phi)
  else
    ("reachability", c.reachability)

/-- `EntityType` from `web4-core/src/lct.rs`. -/
inductive EntityTypeCore where
  | Human
  | AiSoftware
  | AiEmbodied
  | Organization
  | Role
  | Task
  | Resource
  | Hybrid
deriving DecidableEq

/-- `LctStatus` from `web4-core/src/lct.rs`. -/
inductive LctStatus where
  | Active
  | Dormant
  | Void
  | Slashed
deriving DecidableEq

/-- The `{:?}` (Debug) rendering of a status, as interpolated into the
`LctVoided` error message. -/
def LctStatus.debugName : LctStatus → String
  | .Active => "Active"
  | .Dormant => "Dormant"
  | .Void => "Void"
  | .Slashed => "Slashed"

/-- `HardwareBinding` from `lct.rs`. -/
structure HardwareBinding where
  level : ℕ
  description : String
  trust_ceiling : ℝ

/-- The asymmetric-signature primitive is an external collaborator (spec §6);
a public key is modelled by its verification behaviour on (message, signature)
byte strings, left fully abstract. -/
structure PublicKey where
  verify : List ℕ → List ℕ → Except Web4Error Unit

/-- `Lct` from `web4-core/src/lct.rs`.  `Uuid` is modelled as an opaque
`String`; the `created_at` wall-clock timestamp is omitted. -/
structure Lct where
  id : String
  entity_type : EntityTypeCore
  status : LctStatus
  public_key : PublicKey
  created_by : Option String
  hardware_binding : HardwareBinding
  parent_id : Option String
  lineage_depth : ℕ

/-- `Lct::is_active`. -/
def Lct.is_active (l : Lct) : Bool := l.status = LctStatus.Active

/-- `Lct::void` — sets status to `Void`. -/
def Lct.void (l : Lct) : Lct := { l with status := LctStatus.Void }

/-- `Lct::slash` — sets status to `Slashed`. -/
def Lct.slash (l : Lct) : Lct := { l with status := LctStatus.Slashed }

/-- `Lct::trust_ceiling`. -/
def Lct.trust_ceiling (l : Lct) : ℝ := l.hardware_binding.trust_ceiling

/-- The `format!("LCT {} is {:?}", id, status)` message of the
`Web4Error::LctVoided` error. -/
def lctVoidedMsg (id : String) (st : LctStatus) : String :=
  "LCT " ++ id ++ " is " ++ st.debugName

/-- `Lct::verify_signature`: rejects with `LctVoided` whenever the status is
not `Active`, and only otherwise consults the cryptographic verifier. -/
def Lct.verify_signature (l : Lct) (message signature : List ℕ) :
    Except Web4Error Unit :=
  if ¬ l.is_active then
    Except.error (.LctVoided (lctVoidedMsg l.id l.status))
  else
    l.public_key.verify message signature

namespace TrustCore

/-- `Error` from `web4-trust-core/src/lib.rs` (the `Io` variant's payload is
reduced to its message). -/
inductive Error where
  | NotFound (msg : String)
  | Storage (msg : String)
  | Serialization (msg : String)
  | InvalidEntityId (msg : String)
  | Io (msg : String)

/-- Split a character list at the first occurrence of `sep`: returns the part
before and the part after (separator dropped), or `none` when `sep` does not
occur.  This is the behaviour shared by Rust's `str::find(':')`+`split_at`
and `splitn(2, ':')`. -/
def splitFirst (sep : Char) : List Char → Option (List Char × List Char)
  | [] => none
  | c :: cs =>
      if c = sep then some ([], cs)
      else (splitFirst sep cs).map (fun p => (c :: p.1, p.2))

/-- `EntityType` from `web4-trust-core/src/entity/types.rs`. -/
inductive EntityType where
  | Mcp (name : String)
  | Role (name : String)
  | Session (name : String)
  | Reference (name : String)
  | Lct (name : String)
  | Other (name : String)
deriving DecidableEq

/-- The `format!("Expected format 'type:name', got '{}'", entity_id)`
message of the `InvalidEntityId` error. -/
def invalidEntityIdMsg (entity_id : String) : String :=
  "Expected format " ++ "'type:name'" ++ ", got '" ++ entity_id ++ "'"

/-- `EntityType::from_entity_id`: `splitn(2, ':')` yields two parts exactly
when the id contains a `':'`; otherwise the id is rejected with
`InvalidEntityId`. -/
def EntityType.from_entity_id (entity_id : String) : Except Error EntityType :=
  match splitFirst ':' entity_id.data with
  | none => Except.error (.InvalidEntityId (invalidEntityIdMsg entity_id))
  | some (typePart, namePart) =>
      let name := String.mk namePart
      Except.ok <|
        if typePart = "mcp".data then .Mcp name
        else if typePart = "role".data then .Role name
        else if typePart = "session".data then .Session name
        else if typePart = "ref".data then .Reference name
        else if typePart = "lct".data then .Lct name
        else .Other (String.mk typePart ++ ":" ++ name)

/-- `T3Tensor` from `web4-trust-core/src/tensor/t3.rs` — three public score
fields. -/
structure T3Tensor where
  talent : ℝ
  training : ℝ
  temperament : ℝ

/-- `V3Tensor` from `web4-trust-core/src/tensor/v3.rs`. -/
structure V3Tensor where
  valuation : ℝ
  veracity : ℝ
  validity : ℝ

/-- `f64::clamp(0.0, 1.0)`. -/
def clamp01 (x : ℝ) : ℝ := min (max x 0) 1

/-- `T3Tensor::new` — clamps every score into [0, 1]. -/
def T3Tensor.new (talent training temperament : ℝ) : T3Tensor where
  talent := clamp01 talent
  training := clamp01 training
  temperament := clamp01 temperament

/-- `T3Tensor::neutral()`. -/
def T3Tensor.neutral : T3Tensor := ⟨0.5, 0.5, 0.5⟩

/-- `T3Tensor::average()`. -/
def T3Tensor.average (t : T3Tensor) : ℝ :=
  (t.talent + t.training + t.temperament) / 3

/-- `T3Tensor::from_legacy_6d`: talent = competence, training =
avg(reliability, consistency, lineage), temperament = avg(witnesses,
alignment). -/
def T3Tensor.from_legacy_6d
    (competence reliability consistency witnesses lineage alignment : ℝ) :
    T3Tensor :=
  T3Tensor.new competence ((reliability + consistency + lineage) / 3)
    ((witnesses + alignment) / 2)

/-- `T3Tensor::update_temperament_from_witness`. -/
def T3Tensor.update_temperament_from_witness (t : T3Tensor) (success : Bool)
    (magnitude : ℝ) : T3Tensor :=
  let delta := if success then magnitude * 0.03 * (1 - t.temperament)
               else -magnitude * 0.05 * t.temperament
  { t with temperament := clamp01 (t.temperament + delta) }

/-- `T3Tensor::update_temperament_from_alignment`. -/
def T3Tensor.update_temperament_from_alignment (t : T3Tensor) (success : Bool)
    (magnitude : ℝ) : T3Tensor :=
  let delta := if success then magnitude * 0.02 * (1 - t.temperament)
               else magnitude * 0.01 * (1 - t.temperament)
  { t with temperament := clamp01 (t.temperament + delta) }

/-- `V3Tensor::new` — clamps every score into [0, 1]. -/
def V3Tensor.new (valuation veracity validity : ℝ) : V3Tensor where
  valuation := clamp01 valuation
  veracity := clamp01 veracity
  validity := clamp01 validity

/-- `V3Tensor::neutral()`. -/
def V3Tensor.neutral : V3Tensor := ⟨0.5, 0.5, 0.5⟩

/-- `V3Tensor::from_legacy_6d`: valuation = avg(energy, contribution),
veracity = reputation, validity = avg(stewardship, network, temporal). -/
def V3Tensor.from_legacy_6d
    (energy contribution stewardship network reputation temporal : ℝ) :
    V3Tensor :=
  V3Tensor.new ((energy + contribution) / 2) reputation
    ((stewardship + network + temporal) / 3)

/-- `V3Tensor::add_valuation`. -/
def V3Tensor.add_valuation (v : V3Tensor) (amount : ℝ) : V3Tensor :=
  { v with valuation := min (v.valuation + amount) 1 }

/-- `V3Tensor::add_contribution`. -/
def V3Tensor.add_contribution (v : V3Tensor) (amount : ℝ) : V3Tensor :=
  { v with valuation := min (v.valuation + amount) 1 }

/-- `V3Tensor::grow_validity`. -/
def V3Tensor.grow_validity (v : V3Tensor) (amount : ℝ) : V3Tensor :=
  { v with validity := min (v.validity + amount) 1 }

/-- `V3Tensor::update_veracity`. -/
def V3Tensor.update_veracity (v : V3Tensor) (success : Bool) (magnitude : ℝ) :
    V3Tensor :=
  let delta := if success then magnitude * 0.8 * (1 - v.veracity)
               else -magnitude * 0.5 * v.veracity
  { v with veracity := clamp01 (v.veracity + delta) }

/-- A flattened persisted JSON object, reduced to its numeric fields: an
association list from field name to value (JSON numbers as reals). -/
def FieldMap := List (String × ℝ)

/-- Field lookup (serde matches each struct field by name). -/
def FieldMap.lookupField (m : FieldMap) (k : String) : Option ℝ :=
  match m with
  | [] => none
  | (k2, v) :: rest => if k = k2 then some v else FieldMap.lookupField rest k

/-- The read path of the `t3_fields` serde module
(`web4-trust-core/src/entity/trust.rs`): canonical 3-D names first, else the
legacy 6-D names folded via `from_legacy_6d`, else neutral. -/
def t3_fields_deserialize (m : FieldMap) : T3Tensor :=
  match m.lookupField "talent", m.lookupField "training",
      m.lookupField "temperament" with
  | some talent, some training, some temperament =>
      T3Tensor.new talent training temperament
  | _, _, _ =>
    match m.lookupField "competence", m.lookupField "reliability",
        m.lookupField "consistency", m.lookupField "witnesses",
        m.lookupField "lineage", m.lookupField "alignment" with
    | some comp, some rel, some con, some wit, some lin, some ali =>
        T3Tensor.from_legacy_6d comp rel con wit lin ali
    | _, _, _, _, _, _ => T3Tensor.neutral

/-- The write path of the `t3_fields` serde module: the `T3Canonical` struct
serialises exactly the fields `talent`, `training`, `temperament`. -/
def t3_fields_serialize (t : T3Tensor) : FieldMap :=
  [("talent", t.talent), ("training", t.training), ("temperament", t.temperament)]

/-- The read path of the `v3_fields` serde module. -/
def v3_fields_deserialize (m : FieldMap) : V3Tensor :=
  match m.lookupField "valuation", m.lookupField "veracity",
      m.lookupField "validity" with
  | some valuation, some veracity, some validity =>
      V3Tensor.new valuation veracity validity
  | _, _, _ =>
    match m.lookupField "energy", m.lookupField "contribution",
        m.lookupField "stewardship", m.lookupField "network",
        m.lookupField "reputation", m.lookupField "temporal" with
    | some eng, some con, some stew, some net, some rep, some temp =>
        V3Tensor.from_legacy_6d eng con stew net rep temp
    | _, _, _, _, _, _ => V3Tensor.neutral

/-- The write path of the `v3_fields` serde module (`V3Canonical`). -/
def v3_fields_serialize (v : V3Tensor) : FieldMap :=
  [("valuation", v.valuation), ("veracity", v.veracity), ("validity", v.validity)]

/-- `EntityTrust` (`web4-trust-core/src/entity/trust.rs`); the two wall-clock
timestamp fields (`last_action`, `created_at`) are omitted. -/
structure EntityTrust where
  entity_id : String
  entity_type : String
  entity_name : String
  t3 : T3Tensor
  v3 : V3Tensor
  witnessed_by : List String
  has_witnessed : List String
  action_count : ℕ
  success_count : ℕ
  witness_count : ℕ

/-- `EntityTrust::parse_entity_id`: split at the first `':'`; an id with no
separator parses leniently to an empty type and the whole id as name. -/
def EntityTrust.parse_entity_id (entity_id : String) : String × String :=
  match splitFirst ':' entity_id.data with
  | some (typePart, namePart) => (String.mk typePart, String.mk namePart)
  | none => ("", entity_id)

/-- `EntityTrust::new`: a fresh record with neutral tensors, empty witness
lists and zero counters. -/
def EntityTrust.new (entity_id : String) : EntityTrust :=
  let parsed := EntityTrust.parse_entity_id entity_id
  { entity_id := entity_id
    entity_type := parsed.1
    entity_name := parsed.2
    t3 := T3Tensor.neutral
    v3 := V3Tensor.neutral
    witnessed_by := []
    has_witnessed := []
    action_count := 0
    success_count := 0
    witness_count := 0 }

/-- `EntityTrust::receive_witness`: increments `witness_count`, records the
witness id in `witnessed_by` unless already present (`Vec::contains` check
before `push`), then updates T3 temperament and V3 veracity/validity. -/
def EntityTrust.receive_witness (e : EntityTrust) (witness_id : String)
    (success : Bool) (magnitude : ℝ) : EntityTrust :=
  let e := { e with witness_count := e.witness_count + 1 }
  let e := if e.witnessed_by.contains witness_id then e
           else { e with witnessed_by := e.witnessed_by ++ [witness_id] }
  { e with
    t3 := e.t3.update_temperament_from_witness success magnitude
    v3 := (e.v3.update_veracity success magnitude).grow_validity 0.01 }

/-- `EntityTrust::give_witness`: records the target id in `has_witnessed`
unless already present, then updates T3 temperament and V3 valuation. -/
def EntityTrust.give_witness (e : EntityTrust) (target_id : String)
    (success : Bool) (magnitude : ℝ) : EntityTrust :=
  let e := if e.has_witnessed.contains target_id then e
           else { e with has_witnessed := e.has_witnessed ++ [target_id] }
  { e with
    t3 := e.t3.update_temperament_from_alignment success magnitude
    v3 := e.v3.add_contribution 0.005 }

/-- A trust store's observable state: the map from entity id to stored
record (the in-memory backend's `HashMap<String, EntityTrust>`). -/
def Store := String → Option EntityTrust

/-- `TrustStore::get`: returns the stored record, or a fresh neutral one for
an unknown id (the backend also persists the fresh record; every path below
immediately overwrites it with `save`, so the map passed on is the same). -/
def Store.get (s : Store) (entity_id : String) : EntityTrust :=
  (s entity_id).getD (EntityTrust.new entity_id)

/-- `TrustStore::save`: full overwrite keyed by the record's `entity_id`. -/
def Store.save (s : Store) (trust : EntityTrust) : Store :=
  fun id => if id = trust.entity_id then some trust else s id

/-- The default `TrustStore::witness` composition: get+mutate+save the target,
then get+mutate+save the witness; returns the two updated records. -/
def Store.witness (s : Store) (witness_id target_id : String) (success : Bool)
    (magnitude : ℝ) : Store × EntityTrust × EntityTrust :=
  let target := (s.get target_id).receive_witness witness_id success magnitude
  let s1 := s.save target
  let witness := (s1.get witness_id).give_witness target_id success magnitude
  let s2 := s1.save witness
  (s2, witness, target)

/-- `n` repeated identical `witness` calls against the store. -/
def Store.witnessIter (s : Store) (witness_id target_id : String)
    (success : Bool) (magnitude : ℝ) : ℕ → Store
  | 0 => s
  | n + 1 =>
      ((Store.witnessIter s witness_id target_id success magnitude n).witness
        witness_id target_id success magnitude).1

/-- `WitnessNode` (`web4-trust-core/src/witnessing/event.rs`). -/
structure WitnessNode where
  entity_id : String
  t3_average : ℝ
  trust_level : String
  depth : ℕ

/-- `WitnessingChain` (`web4-trust-core/src/witnessing/chain.rs`). -/
structure WitnessingChain where
  entity_id : String
  t3_average : ℝ
  trust_level : String
  witnessed_by : List WitnessNode
  has_witnessed : List WitnessNode

/-- `WitnessingChain::aggregate_witness_trust`: 0.0 for an empty
`witnessed_by` list, else the arithmetic mean of the witnesses' `t3_average`
scores. -/
def WitnessingChain.aggregate_witness_trust (c : WitnessingChain) : ℝ :=
  if c.witnessed_by.isEmpty then 0
  else ((c.witnessed_by.map (fun w => w.t3_average)).sum) /
    (c.witnessed_by.length : ℝ)

/-- `WitnessingChain::transitive_trust`: `t3_average * 0.7 + witness_trust *
0.3`. -/
def WitnessingChain.transitive_trust (c : WitnessingChain) : ℝ :=
  c.t3_average * 0.7 + c.aggregate_witness_trust * 0.3

end TrustCore

/-- C4: for every T3 or V3 tensor whose total dimension weight is 0 — in
particular a freshly created tensor with zero observations — `aggregate()`
returns exactly 0.5 (neutral). -/
theorem c4_zero_weight_aggregates_neutral :
    (∀ t : T3, t.totalWeight = 0 → t.aggregate = 0.5) ∧
    (∀ v : V3, v.totalWeight = 0 → v.aggregate = 0.5) ∧
    T3.new.aggregate = 0.5 ∧ V3.new.aggregate = 0.5 := by
  have ht : ∀ t : T3, t.totalWeight = 0 → t.aggregate = 0.5 := by
    intro t h
    simp [T3.aggregate, h]
  have hv : ∀ v : V3, v.totalWeight = 0 → v.aggregate = 0.5 := by
    intro v h
    simp [V3.aggregate, h]
  refine ⟨ht, hv, ?_, ?_⟩
  · exact ht T3.new (by simp [T3.totalWeight, T3.new])
  · exact hv V3.new (by simp [V3.totalWeight, V3.new])

/-- Witness for C4 at the freshly created tensors. -/
theorem c4_zero_weight_aggregates_neutral_witness :
    T3.new.totalWeight = 0 ∧ T3.new.aggregate = 0.5 :=
  ⟨by simp [T3.totalWeight, T3.new],
   c4_zero_weight_aggregates_neutral.1 T3.new (by simp [T3.totalWeight, T3.new])⟩

/-- C5: `Coherence::total()` is the product continuity × stability × phi ×
reachability; for the factor values (0.8, 0.8, 0.8, 0.8) it equals 0.8⁴ =
0.4096, and any single zero factor forces the total to exactly 0. -/
theorem c5_coherence_total_multiplicative :
    (∀ c : Coherence,
      c.total = c.continuity * c.stability * c.phi * c.reachability) ∧
    (Coherence.mk 0.8 0.8 0.8 0.8).total = 0.8 ^ 4 ∧
    (Coherence.mk 0.8 0.8 0.8 0.8).total = 0.4096 ∧
    (∀ c : Coherence,
      c.continuity = 0 ∨ c.stability = 0 ∨ c.phi = 0 ∨ c.reachability = 0 →
      c.total = 0) := by
  refine ⟨fun c => rfl, by norm_num [Coherence.total], by norm_num [Coherence.total], ?_⟩
  intro c h
  rcases h with h | h | h | h <;> simp [Coherence.total, h]

/-- Witness for C5's zero-factor clause at a concrete coherence value. -/
theorem c5_coherence_total_multiplicative_witness :
    (Coherence.mk 0 0.9 0.9 0.9).total = 0 :=
  c5_coherence_total_multiplicative.2.2.2 (Coherence.mk 0 0.9 0.9 0.9)
    (Or.inl rfl)

/-- C10: a `WitnessingChain` with no witnesses gets witness trust 0.0 (not
the neutral 0.5), so `transitive_trust()` is 0.7 × t3_average, strictly below
the entity's own trust average whenever that average is positive. -/
theorem c10_empty_witness_list_penalized :
    ∀ c : TrustCore.WitnessingChain, c.witnessed_by = [] →
      c.aggregate_witness_trust = 0 ∧
      c.transitive_trust = 0.7 * c.t3_average ∧
      (0 < c.t3_average → c.transitive_trust < c.t3_average) := by
  intro c h
  have h1 : c.aggregate_witness_trust = 0 := by
    simp [TrustCore.WitnessingChain.aggregate_witness_trust, h]
  have h2 : c.transitive_trust = 0.7 * c.t3_average := by
    simp [TrustCore.WitnessingChain.transitive_trust, h1]
    ring
  exact ⟨h1, h2, fun hpos => by rw [h2]; linarith⟩

/-- Witness for C10 at a concrete chain with no witnesses and positive own
trust. -/
theorem c10_empty_witness_list_penalized_witness :
    (TrustCore.WitnessingChain.mk "mcp:test" 0.5 "medium" [] []).transitive_trust <
      (TrustCore.WitnessingChain.mk "mcp:test" 0.5 "medium" [] []).t3_average :=
  (c10_empty_witness_list_penalized
      (TrustCore.WitnessingChain.mk "mcp:test" 0.5 "medium" [] []) rfl).2.2
    (by norm_num)

/-- C2: an LCT whose status is not Active fails `verify_signature` with the
`LctVoided` error for every message and signature, independent of the
cryptographic verifier; in particular a signature that verified successfully
while the LCT was Active is rejected after `void()` or `slash()`. -/
theorem c2_non_active_lct_rejects_all_signatures :
    (∀ (l : Lct) (message signature : List ℕ),
      l.status ≠ LctStatus.Active →
      l.verify_signature message signature =
        Except.error (Web4Error.LctVoided (lctVoidedMsg l.id l.status))) ∧
    (∀ (l : Lct) (message signature : List ℕ),
      l.status = LctStatus.Active →
      l.public_key.verify message signature = Except.ok () →
      l.verify_signature message signature = Except.ok () ∧
      l.void.verify_signature message signature =
        Except.error (Web4Error.LctVoided (lctVoidedMsg l.id LctStatus.Void)) ∧
      l.slash.verify_signature message signature =
        Except.error (Web4Error.LctVoided (lctVoidedMsg l.id LctStatus.Slashed))) := by
  have hrej : ∀ (l : Lct) (message signature : List ℕ),
      l.status ≠ LctStatus.Active →
      l.verify_signature message signature =
        Except.error (Web4Error.LctVoided (lctVoidedMsg l.id l.status)) := by
    intro l message signature h
    simp [Lct.verify_signature, Lct.is_active, h]
  refine ⟨hrej, fun l message signature hact hok => ⟨?_, ?_, ?_⟩⟩
  · simp [Lct.verify_signature, Lct.is_active, hact, hok]
  · exact hrej l.void message signature (by simp [Lct.void])
  · exact hrej l.slash message signature (by simp [Lct.slash])

/-- Witness for C2 at a concrete active LCT whose key verifies everything. -/
theorem c2_non_active_lct_rejects_all_signatures_witness :
    (Lct.mk "lct-1" EntityTypeCore.AiSoftware LctStatus.Active
        (PublicKey.mk fun _ _ => Except.ok ())
        none (HardwareBinding.mk 4 "Software-bound keys (development)" 0.85)
        none 0).void.verify_signature [1, 2] [3] =
      Except.error (Web4Error.LctVoided (lctVoidedMsg "lct-1" LctStatus.Void)) :=
  ((c2_non_active_lct_rejects_all_signatures.2
      (Lct.mk "lct-1" EntityTypeCore.AiSoftware LctStatus.Active
        (PublicKey.mk fun _ _ => Except.ok ())
        none (HardwareBinding.mk 4 "Software-bound keys (development)" 0.85)
        none 0)
      [1, 2] [3] rfl rfl).2).1

/-- `splitFirst` finds nothing exactly when the separator does not occur. -/
theorem splitFirst_eq_none_iff (sep : Char) (l : List Char) :
    TrustCore.splitFirst sep l = none ↔ sep ∉ l := by
  induction l with
  | nil => simp [TrustCore.splitFirst]
  | cons c cs ih =>
      by_cases h : c = sep
      · simp [TrustCore.splitFirst, h]
      · simp only [TrustCore.splitFirst, if_neg h, Option.map_eq_none', ih,
          List.mem_cons, not_or]
        constructor
        · intro hn
          exact ⟨fun hsc => h hsc.symm, hn⟩
        · intro hn
          exact hn.2

/-- C3: a validation error is rejected before any mutation: `observe` with a
score outside [0, 1] returns `InvalidInput` and leaves the tensor (scores,
weights, observation counts, sub-dimensions) unchanged, for T3 and V3 alike;
and an entity id with no `':'` separator is rejected by
`EntityType::from_entity_id` with `InvalidEntityId` — a pure validation that
creates no state. -/
theorem c3_validation_errors_reject_before_mutation :
    (∀ (t : T3) (d : TrustDimension) (s : ℝ), ¬(0 ≤ s ∧ s ≤ 1) →
      t.observe d s =
        (Except.error
          (Web4Error.InvalidInput "Observed score must be in range [0.0, 1.0]"), t)) ∧
    (∀ (v : V3) (d : ValueDimension) (s : ℝ), ¬(0 ≤ s ∧ s ≤ 1) →
      v.observe d s =
        (Except.error
          (Web4Error.InvalidInput "Observed score must be in range [0.0, 1.0]"), v)) ∧
    (∀ entity_id : String, (':') ∉ entity_id.data →
      TrustCore.EntityType.from_entity_id entity_id =
        Except.error
          (TrustCore.Error.InvalidEntityId
            (TrustCore.invalidEntityIdMsg entity_id))) := by
  refine ⟨?_, ?_, ?_⟩
  · intro t d s h
    simp only [T3.observe, if_pos h]
  · intro v d s h
    simp only [V3.observe, if_pos h]
  · intro entity_id h
    have hs : TrustCore.splitFirst ':' entity_id.data = none :=
      (splitFirst_eq_none_iff ':' entity_id.data).mpr h
    simp [TrustCore.EntityType.from_entity_id, hs]

/-- Witness for C3 at score 2 on a fresh tensor and at the separatorless id
"invalid". -/
theorem c3_validation_errors_reject_before_mutation_witness :
    T3.new.observe TrustDimension.Talent 2 =
      (Except.error
        (Web4Error.InvalidInput "Observed score must be in range [0.0, 1.0]"),
        T3.new) ∧
    TrustCore.EntityType.from_entity_id "invalid" =
      Except.error
        (TrustCore.Error.InvalidEntityId
          (TrustCore.invalidEntityIdMsg "invalid")) :=
  ⟨c3_validation_errors_reject_before_mutation.1 T3.new TrustDimension.Talent 2
      (by norm_num),
   c3_validation_errors_reject_before_mutation.2.2 "invalid" (by decide)⟩

/-- C9: `limiting_factor()` returns the name-value pair of the minimum of
the four factors, with ties broken in favour of the factor earliest in the
stable enumeration order (continuity, stability, phi, reachability). -/
theorem c9_limiting_factor_returns_ordered_min :
    ∀ c : Coherence, c.limiting_factor = c.limiting_factor_ordered_min := by
  rintro ⟨C, S, P, R⟩
  simp only [Coherence.limiting_factor, Coherence.limiting_factor_ordered_min,
    rustMinBy2]
  split_ifs <;> simp_all [not_lt, Prod.ext_iff] <;> linarith

/-- A T3 tensor whose every root score is neutral (0.5) but which carries
full confidence weight on the Talent dimension — reachable, e.g., by
observing 0.5 repeatedly. -/
def t3NeutralScoresWithWeight : T3 where
  dimensions := fun _ => 0.5
  weights := fun i => if i = 0 then 1 else 0
  observation_counts := fun i => if i = 0 then 9 else 0
  sub_dimensions := []

/-- C8 counterexample: `decay(0.5)` applied to a tensor whose every dimension
score equals 0.5 is NOT a no-op on the tensor — the Talent weight shrinks
from 1 to 0.5. -/
theorem c8_decay_not_noop_counterexample :
    t3NeutralScoresWithWeight.dimensions 0 = 0.5 ∧
    t3NeutralScoresWithWeight.dimensions 1 = 0.5 ∧
    t3NeutralScoresWithWeight.dimensions 2 = 0.5 ∧
    (0 : ℝ) < 0.5 ∧ (0.5 : ℝ) < 1 ∧
    t3NeutralScoresWithWeight.decay 0.5 ≠ t3NeutralScoresWithWeight := by
  refine ⟨rfl, rfl, rfl, by norm_num, by norm_num, ?_⟩
  intro h
  have hw := congrArg (fun t : T3 => t.weights 0) h
  simp only [t3NeutralScoresWithWeight, T3.decay, if_pos rfl] at hw
  norm_num at hw

/-- C8 amended: `decay(f)` on a tensor whose every root score is 0.5 leaves
all the scores unchanged (a no-op on scores only) — each weight is
multiplied by `f`; and for `f ∈ (0, 1)`, every dimension whose score differs
from 0.5 has its distance to neutral strictly reduced.  T3 and V3 behave
identically. -/
theorem c8_decay_contracts_toward_neutral :
    (∀ (t : T3) (f : ℝ), (∀ i, t.dimensions i = 0.5) →
      ∀ i, (t.decay f).dimensions i = t.dimensions i) ∧
    (∀ (t : T3) (f : ℝ) (i : Fin 3), (t.decay f).weights i = t.weights i * f) ∧
    (∀ (t : T3) (f : ℝ) (i : Fin 3), 0 < f → f < 1 → t.dimensions i ≠ 0.5 →
      |(t.decay f).dimensions i - 0.5| < |t.dimensions i - 0.5|) ∧
    (∀ (v : V3) (f : ℝ), (∀ i, v.dimensions i = 0.5) →
      ∀ i, (v.decay f).dimensions i = v.dimensions i) ∧
    (∀ (v : V3) (f : ℝ) (i : Fin 3), (v.decay f).weights i = v.weights i * f) ∧
    (∀ (v : V3) (f : ℝ) (i : Fin 3), 0 < f → f < 1 → v.dimensions i ≠ 0.5 →
      |(v.decay f).dimensions i - 0.5| < |v.dimensions i - 0.5|) := by
  have key : ∀ (d f : ℝ), 0 < f → f < 1 → d ≠ 0.5 →
      |0.5 + (d - 0.5) * f - 0.5| < |d - 0.5| := by
    intro d f hf0 hf1 hd
    have h1 : (0.5 : ℝ) + (d - 0.5) * f - 0.5 = (d - 0.5) * f := by ring
    rw [h1, abs_mul]
    have hpos : 0 < |d - 0.5| := abs_pos.mpr (sub_ne_zero.mpr hd)
    have hfabs : |f| < 1 := by
      rw [abs_of_pos hf0]
      exact hf1
    exact mul_lt_of_lt_one_right hpos hfabs
  refine ⟨?_, fun t f i => rfl, ?_, ?_, fun v f i => rfl, ?_⟩
  · intro t f h i
    simp [T3.decay, h i]
  · intro t f i hf0 hf1 hd
    exact key (t.dimensions i) f hf0 hf1 hd
  · intro v f h i
    simp [V3.decay, h i]
  · intro v f i hf0 hf1 hd
    exact key (v.dimensions i) f hf0 hf1 hd

/-- Witness for C8's amended statement: score no-op on the neutral-score
tensor and strict contraction on a 0.9-score dimension, at f = 0.5. -/
theorem c8_decay_contracts_toward_neutral_witness :
    (t3NeutralScoresWithWeight.decay 0.5).dimensions 0 =
      t3NeutralScoresWithWeight.dimensions 0 ∧
    |((T3.mk (fun _ => 0.9) (fun _ => 1) (fun _ => 0) []).decay 0.5).dimensions
        0 - 0.5| <
      |(T3.mk (fun _ => 0.9) (fun _ => 1) (fun _ => 0) []).dimensions 0 - 0.5| :=
  ⟨c8_decay_contracts_toward_neutral.1 t3NeutralScoresWithWeight 0.5
      (fun _ => rfl) 0,
   c8_decay_contracts_toward_neutral.2.2.1
      (T3.mk (fun _ => 0.9) (fun _ => 1) (fun _ => 0) []) 0.5 0
      (by norm_num) (by norm_num) (by norm_num)⟩

/-- A T3 tensor with a zero score and full weight on the Talent dimension. -/
def t3ZeroScoreUnitWeight : T3 where
  dimensions := ![0, 0.5, 0.5]
  weights := ![1, 0, 0]
  observation_counts := ![9, 0, 0]
  sub_dimensions := []

/-- A V3 tensor with a zero-score, positive-weight dimension and two perfect
fully-weighted dimensions. -/
def v3ZeroScoreCompensated : V3 where
  dimensions := ![0, 1, 1]
  weights := ![1, 1, 1]
  observation_counts := ![9, 9, 9]
  sub_dimensions := []

/-- C1 counterexample: a T3 tensor with a dimension of score 0 and weight 1
does NOT aggregate to exactly 0 — the epsilon (1e-10) added before the
logarithm makes the weighted geometric mean strictly positive. -/
theorem c1_t3_aggregate_not_exactly_zero :
    t3ZeroScoreUnitWeight.dimensions 0 = 0 ∧
    (0 : ℝ) < t3ZeroScoreUnitWeight.weights 0 ∧
    t3ZeroScoreUnitWeight.aggregate ≠ 0 := by
  have hW : t3ZeroScoreUnitWeight.totalWeight = 1 := by
    simp [T3.totalWeight, t3ZeroScoreUnitWeight]
  refine ⟨rfl, by norm_num [t3ZeroScoreUnitWeight], ?_⟩
  rw [T3.aggregate, if_neg (by rw [hW]; norm_num)]
  exact (Real.exp_pos _).ne'

/-- C1 amended: a zero-score dimension with positive weight collapses the T3
aggregate not to exactly 0 but to a strictly positive value bounded by
`exp((w·ln ε + (W − w)·ln(1 + ε)) / W)` with ε = 1e-10 (so at most about
ε^(w/W)); a V3 aggregate is not collapsed by a single zero-score
positive-weight dimension (witnessed by a concrete compensated tensor). -/
theorem c1_conjunctive_vs_compensatory_aggregate :
    (∀ (t : T3) (i : Fin 3),
      (∀ j, 0 ≤ t.dimensions j) → (∀ j, t.dimensions j ≤ 1) →
      (∀ j, 0 ≤ t.weights j) →
      t.dimensions i = 0 → 0 < t.weights i →
      0 < t.aggregate ∧
      t.aggregate ≤
        Real.exp ((t.weights i * Real.log epsT3 +
          (t.totalWeight - t.weights i) * Real.log (1 + epsT3)) /
            t.totalWeight)) ∧
    (v3ZeroScoreCompensated.dimensions 0 = 0 ∧
      (0 : ℝ) < v3ZeroScoreCompensated.weights 0 ∧
      0 < v3ZeroScoreCompensated.aggregate) := by
  have heps : (0 : ℝ) < epsT3 := by norm_num [epsT3]
  have hfin : ∀ k : Fin 3, k = 0 ∨ k = 1 ∨ k = 2 := by decide
  constructor
  · intro t i hd0 hd1 hw hzero hpos
    have hbound : ∀ j : Fin 3,
        t.weights j * Real.log (t.dimensions j + epsT3) ≤
          t.weights j * Real.log (1 + epsT3) := by
      intro j
      apply mul_le_mul_of_nonneg_left _ (hw j)
      apply Real.log_le_log (by linarith [hd0 j])
      linarith [hd1 j]
    have hzeroterm : t.weights i * Real.log (t.dimensions i + epsT3) =
        t.weights i * Real.log epsT3 := by
      rw [hzero, zero_add]
    have hW : 0 < t.totalWeight := by
      rw [T3.totalWeight]
      rcases hfin i with h | h | h <;> subst h <;>
        linarith [hw 0, hw 1, hw 2, hpos]
    constructor
    · rw [T3.aggregate, if_neg hW.ne']
      exact Real.exp_pos _
    · rw [T3.aggregate, if_neg hW.ne']
      apply Real.exp_le_exp.mpr
      rw [div_le_div_iff_of_pos_right hW]
      rcases hfin i with h | h | h <;> subst h
      · have hsplit : t.totalWeight - t.weights 0 = t.weights 1 + t.weights 2 := by
          rw [T3.totalWeight]; ring
        rw [hsplit, add_mul]
        linarith [hzeroterm, hbound 1, hbound 2]
      · have hsplit : t.totalWeight - t.weights 1 = t.weights 0 + t.weights 2 := by
          rw [T3.totalWeight]; ring
        rw [hsplit, add_mul]
        linarith [hzeroterm, hbound 0, hbound 2]
      · have hsplit : t.totalWeight - t.weights 2 = t.weights 0 + t.weights 1 := by
          rw [T3.totalWeight]; ring
        rw [hsplit, add_mul]
        linarith [hzeroterm, hbound 0, hbound 1]
  · refine ⟨rfl, by norm_num [v3ZeroScoreCompensated], ?_⟩
    have hW : v3ZeroScoreCompensated.totalWeight = 3 := by
      norm_num [V3.totalWeight, v3ZeroScoreCompensated]
    rw [V3.aggregate, if_neg (by rw [hW]; norm_num), hW]
    norm_num [v3ZeroScoreCompensated]

/-- Witness for C1's amended statement at the concrete zero-score tensor. -/
theorem c1_conjunctive_vs_compensatory_aggregate_witness :
    0 < t3ZeroScoreUnitWeight.aggregate ∧
    t3ZeroScoreUnitWeight.aggregate ≤
      Real.exp ((t3ZeroScoreUnitWeight.weights 0 * Real.log epsT3 +
        (t3ZeroScoreUnitWeight.totalWeight - t3ZeroScoreUnitWeight.weights 0) *
          Real.log (1 + epsT3)) / t3ZeroScoreUnitWeight.totalWeight) :=
  c1_conjunctive_vs_compensatory_aggregate.1 t3ZeroScoreUnitWeight 0
    (by intro j; fin_cases j <;> norm_num [t3ZeroScoreUnitWeight])
    (by intro j; fin_cases j <;> norm_num [t3ZeroScoreUnitWeight])
    (by intro j; fin_cases j <;> norm_num [t3ZeroScoreUnitWeight])
    rfl (by norm_num [t3ZeroScoreUnitWeight])

/-- Clamping into [0, 1] is the identity on values already in range. -/
theorem clamp01_eq_self (x : ℝ) (h0 : 0 ≤ x) (h1 : x ≤ 1) :
    TrustCore.clamp01 x = x := by
  rw [TrustCore.clamp01, max_eq_left h0, min_eq_left h1]

/-- The numeric fields of a persisted entity-trust JSON object that contains
only the legacy 6-dimension field names (for both tensors). -/
def legacyFieldMap (comp rel con wit lin ali eng cont stew net rep tem : ℝ) :
    TrustCore.FieldMap :=
  [("competence", comp), ("reliability", rel), ("consistency", con),
   ("witnesses", wit), ("lineage", lin), ("alignment", ali),
   ("energy", eng), ("contribution", cont), ("stewardship", stew),
   ("network", net), ("reputation", rep), ("temporal", tem)]

/-- C6: a persisted record holding only legacy 6-dimension field names
deserialises by the documented folding rules — T3: talent = competence 1:1,
training = avg(reliability, consistency, lineage), temperament =
avg(witnesses, alignment); V3: valuation = avg(energy, contribution),
veracity = reputation, validity = avg(stewardship, network, temporal) — and
re-serialisation emits exactly the canonical dimension names, never legacy
ones. -/
theorem c6_legacy_6d_reads_fold_writes_canonical :
    ∀ comp rel con wit lin ali eng cont stew net rep tem : ℝ,
      (∀ x ∈ [comp, rel, con, wit, lin, ali, eng, cont, stew, net, rep, tem],
        0 ≤ x ∧ x ≤ 1) →
      TrustCore.t3_fields_deserialize
          (legacyFieldMap comp rel con wit lin ali eng cont stew net rep tem) =
        TrustCore.T3Tensor.mk comp ((rel + con + lin) / 3) ((wit + ali) / 2) ∧
      TrustCore.v3_fields_deserialize
          (legacyFieldMap comp rel con wit lin ali eng cont stew net rep tem) =
        TrustCore.V3Tensor.mk ((eng + cont) / 2) rep ((stew + net + tem) / 3) ∧
      (∀ t : TrustCore.T3Tensor,
        (TrustCore.t3_fields_serialize t).map Prod.fst =
          ["talent", "training", "temperament"]) ∧
      (∀ v : TrustCore.V3Tensor,
        (TrustCore.v3_fields_serialize v).map Prod.fst =
          ["valuation", "veracity", "validity"]) := by
  intro comp rel con wit lin ali eng cont stew net rep tem h
  have hcomp := h comp (by simp)
  have hrel := h rel (by simp)
  have hcon := h con (by simp)
  have hwit := h wit (by simp)
  have hlin := h lin (by simp)
  have hali := h ali (by simp)
  have heng := h eng (by simp)
  have hcont := h cont (by simp)
  have hstew := h stew (by simp)
  have hnet := h net (by simp)
  have hrep := h rep (by simp)
  have htem := h tem (by simp)
  have ht3 : TrustCore.t3_fields_deserialize
      (legacyFieldMap comp rel con wit lin ali eng cont stew net rep tem) =
      TrustCore.T3Tensor.from_legacy_6d comp rel con wit lin ali := rfl
  have hv3 : TrustCore.v3_fields_deserialize
      (legacyFieldMap comp rel con wit lin ali eng cont stew net rep tem) =
      TrustCore.V3Tensor.from_legacy_6d eng cont stew net rep tem := rfl
  refine ⟨?_, ?_, fun t => rfl, fun v => rfl⟩
  · rw [ht3, TrustCore.T3Tensor.from_legacy_6d, TrustCore.T3Tensor.new]
    have e1 := clamp01_eq_self comp hcomp.1 hcomp.2
    have e2 := clamp01_eq_self ((rel + con + lin) / 3)
      (by linarith [hrel.1, hcon.1, hlin.1]) (by linarith [hrel.2, hcon.2, hlin.2])
    have e3 := clamp01_eq_self ((wit + ali) / 2)
      (by linarith [hwit.1, hali.1]) (by linarith [hwit.2, hali.2])
    rw [e1, e2, e3]
  · rw [hv3, TrustCore.V3Tensor.from_legacy_6d, TrustCore.V3Tensor.new]
    have e1 := clamp01_eq_self ((eng + cont) / 2)
      (by linarith [heng.1, hcont.1]) (by linarith [heng.2, hcont.2])
    have e2 := clamp01_eq_self rep hrep.1 hrep.2
    have e3 := clamp01_eq_self ((stew + net + tem) / 3)
      (by linarith [hstew.1, hnet.1, htem.1]) (by linarith [hstew.2, hnet.2, htem.2])
    rw [e1, e2, e3]

/-- Witness for C6 at the legacy values of the repository's own
`test_legacy_deserialization` test. -/
theorem c6_legacy_6d_reads_fold_writes_canonical_witness :
    TrustCore.t3_fields_deserialize
        (legacyFieldMap 0.8 0.7 0.6 0.5 0.9 0.4 0.8 0.6 0.5 0.7 0.9 0.3) =
      TrustCore.T3Tensor.mk 0.8 ((0.7 + 0.6 + 0.9) / 3) ((0.5 + 0.4) / 2) :=
  (c6_legacy_6d_reads_fold_writes_canonical 0.8 0.7 0.6 0.5 0.9 0.4 0.8 0.6 0.5
      0.7 0.9 0.3
      (by
        intro x hx
        simp only [List.mem_cons, List.not_mem_nil, or_false] at hx
        rcases hx with rfl | rfl | rfl | rfl | rfl | rfl | rfl | rfl | rfl |
          rfl | rfl | rfl <;> norm_num)).1

/-- `EntityTrust::new` records the given id verbatim. -/
theorem entityTrust_new_id (id : String) :
    (TrustCore.EntityTrust.new id).entity_id = id := rfl

/-- `receive_witness` keeps the entity id, always increments `witness_count`,
and appends the witness id to `witnessed_by` only when it is not already
present. -/
theorem receive_witness_effects (e : TrustCore.EntityTrust) (w : String)
    (s : Bool) (m : ℝ) :
    (e.receive_witness w s m).entity_id = e.entity_id ∧
    (e.receive_witness w s m).witness_count = e.witness_count + 1 ∧
    (e.receive_witness w s m).witnessed_by =
      (if e.witnessed_by.contains w then e.witnessed_by
       else e.witnessed_by ++ [w]) := by
  simp only [TrustCore.EntityTrust.receive_witness]
  split_ifs <;> simp_all

/-- `give_witness` keeps the entity id and appends the target id to
`has_witnessed` only when it is not already present. -/
theorem give_witness_effects (e : TrustCore.EntityTrust) (t : String)
    (s : Bool) (m : ℝ) :
    (e.give_witness t s m).entity_id = e.entity_id ∧
    (e.give_witness t s m).has_witnessed =
      (if e.has_witnessed.contains t then e.has_witnessed
       else e.has_witnessed ++ [t]) := by
  simp only [TrustCore.EntityTrust.give_witness]
  split_ifs <;> simp_all

/-- One `witness` store call, seen at the two touched keys: the new store
maps the target id to the received-witness update of the old target record
and the witness id to the given-witness update of the old witness record. -/
theorem store_witness_step (s : TrustCore.Store) (wid tid : String)
    (success : Bool) (magnitude : ℝ) (hne : wid ≠ tid)
    (hid1 : (s.get tid).entity_id = tid) (hid2 : (s.get wid).entity_id = wid) :
    (s.witness wid tid success magnitude).1 tid =
      some ((s.get tid).receive_witness wid success magnitude) ∧
    (s.witness wid tid success magnitude).1 wid =
      some ((s.get wid).give_witness tid success magnitude) := by
  have e1 : ((s.get tid).receive_witness wid success magnitude).entity_id =
      tid := by
    rw [(receive_witness_effects _ _ _ _).1, hid1]
  have hsw : (s.save ((s.get tid).receive_witness wid success magnitude))
      wid = s wid := by
    simp only [TrustCore.Store.save, e1]
    rw [if_neg hne]
  have hg : TrustCore.Store.get
      (s.save ((s.get tid).receive_witness wid success magnitude)) wid =
      s.get wid := by
    simp only [TrustCore.Store.get] at hsw ⊢
    rw [hsw]
  have e2 : ((s.get wid).give_witness tid success magnitude).entity_id =
      wid := by
    rw [(give_witness_effects _ _ _ _).1, hid2]
  constructor
  · simp only [TrustCore.Store.witness]
    rw [hg]
    simp only [TrustCore.Store.save]
    rw [e2, e1, if_neg (fun h => hne h.symm), if_pos rfl]
  · simp only [TrustCore.Store.witness]
    rw [hg]
    simp only [TrustCore.Store.save]
    rw [e2, if_pos rfl]

/-- State reached by `n ≥ 1` identical `witness` calls from an empty store:
the target record holds the witness id as the singleton `witnessed_by` list
with `witness_count = n`, and the witness record holds the target id as the
singleton `has_witnessed` list. -/
theorem witnessIter_state (wid tid : String) (success : Bool) (magnitude : ℝ)
    (hne : wid ≠ tid) :
    ∀ n : ℕ, 1 ≤ n →
      ∃ tgt w : TrustCore.EntityTrust,
        TrustCore.Store.witnessIter (fun _ => none) wid tid success magnitude n
            tid = some tgt ∧
        TrustCore.Store.witnessIter (fun _ => none) wid tid success magnitude n
            wid = some w ∧
        tgt.entity_id = tid ∧ tgt.witnessed_by = [wid] ∧
        tgt.witness_count = n ∧
        w.entity_id = wid ∧ w.has_witnessed = [tid] := by
  intro n hn
  induction n with
  | zero => omega
  | succ k ih =>
      by_cases hk : k = 0
      · subst hk
        have hgt : TrustCore.Store.get (fun _ => none) tid =
            TrustCore.EntityTrust.new tid := by
          simp [TrustCore.Store.get]
        have hgw : TrustCore.Store.get (fun _ => none) wid =
            TrustCore.EntityTrust.new wid := by
          simp [TrustCore.Store.get]
        have hid1 : (TrustCore.Store.get (fun _ => none) tid).entity_id =
            tid := by
          rw [hgt, entityTrust_new_id]
        have hid2 : (TrustCore.Store.get (fun _ => none) wid).entity_id =
            wid := by
          rw [hgw, entityTrust_new_id]
        obtain ⟨h1, h2⟩ := store_witness_step (fun _ => none) wid tid success
          magnitude hne hid1 hid2
        rw [hgt] at h1
        rw [hgw] at h2
        refine ⟨(TrustCore.EntityTrust.new tid).receive_witness wid success
            magnitude,
          (TrustCore.EntityTrust.new wid).give_witness tid success magnitude,
          ?_, ?_, ?_, ?_, ?_, ?_, ?_⟩
        · simpa [TrustCore.Store.witnessIter] using h1
        · simpa [TrustCore.Store.witnessIter] using h2
        · rw [(receive_witness_effects _ _ _ _).1, entityTrust_new_id]
        · rw [(receive_witness_effects _ _ _ _).2.2]
          simp [TrustCore.EntityTrust.new]
        · rw [(receive_witness_effects _ _ _ _).2.1]
          rfl
        · rw [(give_witness_effects _ _ _ _).1, entityTrust_new_id]
        · rw [(give_witness_effects _ _ _ _).2]
          simp [TrustCore.EntityTrust.new]
      · have hk1 : 1 ≤ k := Nat.one_le_iff_ne_zero.mpr hk
        obtain ⟨tgt, w, hstgt, hsw, htid, hwb, hwc, hwid, hhw⟩ := ih hk1
        have hgt : (TrustCore.Store.witnessIter (fun _ => none) wid tid success
            magnitude k).get tid = tgt := by
          simp [TrustCore.Store.get, hstgt]
        have hgw : (TrustCore.Store.witnessIter (fun _ => none) wid tid success
            magnitude k).get wid = w := by
          simp [TrustCore.Store.get, hsw]
        obtain ⟨h1, h2⟩ := store_witness_step
          (TrustCore.Store.witnessIter (fun _ => none) wid tid success
            magnitude k)
          wid tid success magnitude hne (by rw [hgt]; exact htid)
          (by rw [hgw]; exact hwid)
        rw [hgt] at h1
        rw [hgw] at h2
        refine ⟨tgt.receive_witness wid success magnitude,
          w.give_witness tid success magnitude, ?_, ?_, ?_, ?_, ?_, ?_, ?_⟩
        · simpa [TrustCore.Store.witnessIter] using h1
        · simpa [TrustCore.Store.witnessIter] using h2
        · rw [(receive_witness_effects _ _ _ _).1, htid]
        · rw [(receive_witness_effects _ _ _ _).2.2, hwb]
          simp
        · rw [(receive_witness_effects _ _ _ _).2.1, hwc]
        · rw [(give_witness_effects _ _ _ _).1, hwid]
        · rw [(give_witness_effects _ _ _ _).2, hhw]
          simp

/-- C7: after any number `n ≥ 1` of repeated identical `witness(W, T,
success, m)` store calls, T's `witnessed_by` contains W exactly once and W's
`has_witnessed` contains T exactly once, while T's `witness_count` equals
`n` (it increments on every call). -/
theorem c7_repeated_witnessing_idempotent_membership :
    ∀ (n : ℕ) (wid tid : String) (success : Bool) (magnitude : ℝ),
      1 ≤ n → wid ≠ tid →
      ((TrustCore.Store.witnessIter (fun _ => none) wid tid success magnitude
          n).get tid).witnessed_by.count wid = 1 ∧
      ((TrustCore.Store.witnessIter (fun _ => none) wid tid success magnitude
          n).get wid).has_witnessed.count tid = 1 ∧
      ((TrustCore.Store.witnessIter (fun _ => none) wid tid success magnitude
          n).get tid).witness_count = n := by
  intro n wid tid success magnitude hn hne
  obtain ⟨tgt, w, hstgt, hsw, _, hwb, hwc, _, hhw⟩ :=
    witnessIter_state wid tid success magnitude hne n hn
  refine ⟨?_, ?_, ?_⟩
  · simp [TrustCore.Store.get, hstgt, hwb]
  · simp [TrustCore.Store.get, hsw, hhw]
  · simp [TrustCore.Store.get, hstgt, hwc]

/-- Witness for C7: three identical calls between two concrete entities. -/
theorem c7_repeated_witnessing_idempotent_membership_witness :
    ((TrustCore.Store.witnessIter (fun _ => none) "session:abc" "mcp:test"
        true 0.1 3).get "mcp:test").witnessed_by.count "session:abc" = 1 ∧
    ((TrustCore.Store.witnessIter (fun _ => none) "session:abc" "mcp:test"
        true 0.1 3).get "session:abc").has_witnessed.count "mcp:test" = 1 ∧
    ((TrustCore.Store.witnessIter (fun _ => none) "session:abc" "mcp:test"
        true 0.1 3).get "mcp:test").witness_count = 3 :=
  c7_repeated_witnessing_idempotent_membership 3 "session:abc" "mcp:test"
    true 0.1 (by norm_num) (by decide)

end Web4
